import Mathlib

/-
  Verification development for the js-genai live bidirectional session
  protocol engine and its client-configuration / content-normalization
  collaborators.

  The repository snapshot contains the test suites
  (test/unit/transformers_test.ts, test/system/node/live_test.ts, the
  client unit tests) and package metadata, but not the implementation
  files themselves (src/live.ts, src/_transformers.ts, src/client.ts).
  Every operational definition below is therefore a model of the missing
  implementation, built from the natural-language specification (spec.md)
  and constrained by the behavior pinned down in the in-repo test suites.
-/

namespace GenAI

/-- Inline media blob: base64 data plus a MIME type. -/
structure Blob where
  data : String
  mimeType : String
deriving DecidableEq, Repr

/-- A function-call request, as carried in a toolCall server event or a
functionCall Part.  The args payload is kept opaque. -/
structure FunctionCall where
  id : Option String
  name : String
  args : String
deriving DecidableEq, Repr

/-- A function-call result entry of a toolResponse client event.  The
response payload is kept opaque. -/
structure FunctionResponse where
  id : Option String
  name : Option String
  response : String
deriving DecidableEq, Repr

/-- Part: tagged variant over text, inline media blob, function call and
function response (spec section 3). -/
inductive Part where
  | text (s : String)
  | inlineData (b : Blob)
  | functionCall (fc : FunctionCall)
  | functionResponse (fr : FunctionResponse)
deriving DecidableEq, Repr

/-- Content: a role together with an ordered sequence of Parts. -/
structure Content where
  role : String
  parts : List Part
deriving DecidableEq, Repr

/-- PartUnion: a caller-supplied part shape, either a raw string or a
structured Part. -/
inductive PartUnion where
  | str (s : String)
  | part (p : Part)
deriving DecidableEq, Repr

/-- ContentUnion: a caller-supplied content shape, either a full Content,
a raw string, or a bare Part. -/
inductive ContentUnion where
  | content (c : Content)
  | str (s : String)
  | part (p : Part)
deriving DecidableEq, Repr

/-- One element of a caller-supplied contents array: a string, a bare
Part, a full Content, or a nested array of part shapes. -/
inductive ContentsItem where
  | str (s : String)
  | part (p : Part)
  | content (c : Content)
  | list (ps : List PartUnion)
deriving DecidableEq, Repr

/-- ContentListUnion: either one content shape or an array of items. -/
inductive ContentListUnion where
  | single (u : ContentUnion)
  | array (items : List ContentsItem)
deriving DecidableEq, Repr

/-- Modelled from the spec: the Content Normalizer of src/_transformers.ts
(missing from the snapshot); tPart converts one part shape to a Part, as
pinned by test/unit/transformers_test.ts (a string becomes a text Part, a
Part object passes through). -/
def tPart : PartUnion → Part
  | PartUnion.str s => Part.text s
  | PartUnion.part p => p

/-- Modelled from the spec: tParts of src/_transformers.ts (missing from
the snapshot); an empty part list is rejected, otherwise each element is
converted by tPart in order. -/
def tParts : List PartUnion → Except String (List Part)
  | [] => Except.error "PartListUnion is required"
  | ps => Except.ok (ps.map tPart)

/-- Role inferred for a bare Part: a functionCall part belongs to the
model turn, every other part shape to the user turn. -/
def partRole : Part → String
  | Part.functionCall _ => "model"
  | _ => "user"

/-- Modelled from the spec: tContent of src/_transformers.ts (missing
from the snapshot); a full Content passes through, a string or bare Part
is wrapped into a single-part Content whose role is inferred by
partRole, as pinned by test/unit/transformers_test.ts. -/
def tContent : ContentUnion → Content
  | ContentUnion.content c => c
  | ContentUnion.str s => { role := "user", parts := [Part.text s] }
  | ContentUnion.part p => { role := partRole p, parts := [p] }

/-- A Part that closes a running accumulation of loose strings and parts:
function calls and function responses each yield their own Content. -/
def isBreaker : Part → Bool
  | Part.functionCall _ => true
  | Part.functionResponse _ => true
  | _ => false

/-- Emit the accumulated loose parts (if any) as one user Content. -/
def flushAcc (acc : List Part) (out : List Content) : List Content :=
  if acc.isEmpty then out else out ++ [{ role := "user", parts := acc }]

/-- Modelled from the spec: the array walk inside tContents of
src/_transformers.ts (missing from the snapshot).  Consecutive strings
and non-breaker parts accumulate into a single user Content; a full
Content, a breaker part, or a nested array flushes the accumulation and
yields its own Content, preserving input order, as pinned by
test/unit/transformers_test.ts. -/
def tContentsGo : List ContentsItem → List Part → List Content → Except String (List Content)
  | [], acc, out => Except.ok (flushAcc acc out)
  | ContentsItem.str s :: rest, acc, out => tContentsGo rest (acc ++ [Part.text s]) out
  | ContentsItem.part p :: rest, acc, out =>
    if isBreaker p then
      tContentsGo rest [] (flushAcc acc out ++ [{ role := partRole p, parts := [p] }])
    else
      tContentsGo rest (acc ++ [p]) out
  | ContentsItem.content c :: rest, acc, out =>
    tContentsGo rest [] (flushAcc acc out ++ [c])
  | ContentsItem.list ps :: rest, acc, out =>
    match tParts ps with
    | Except.error e => Except.error e
    | Except.ok parts =>
      tContentsGo rest [] (flushAcc acc out ++ [{ role := "user", parts := parts }])

/-- Modelled from the spec: tContents of src/_transformers.ts (missing
from the snapshot); a missing or empty contents argument is rejected
with the message pinned by test/unit/transformers_test.ts, a single
content shape becomes a one-element list, and an array is normalized by
tContentsGo. -/
def tContents : Option ContentListUnion → Except String (List Content)
  | none => Except.error "contents are required"
  | some (ContentListUnion.single u) => Except.ok [tContent u]
  | some (ContentListUnion.array []) => Except.error "contents are required"
  | some (ContentListUnion.array items) => tContentsGo items [] []

/-- Boolean test that the first character list is an initial segment of
the second. -/
def listStarts : List Char → List Char → Bool
  | [], _ => true
  | _ :: _, [] => false
  | p :: ps, c :: cs => p == c && listStarts ps cs

/-- String-level wrapper of listStarts. -/
def strStarts (p s : String) : Bool := listStarts p.data s.data

/-- Split a character list at the first occurrence of the separator,
returning the pieces before and after it, or none when absent. -/
def splitFirst (sep : Char) : List Char → Option (List Char × List Char)
  | [] => none
  | c :: cs =>
    if c == sep then some ([], cs)
    else
      match splitFirst sep cs with
      | some (a, b) => some (c :: a, b)
      | none => none

/-- Modelled from the spec: tModel of src/_transformers.ts (missing from
the snapshot), the model-name transformer, as pinned by
test/unit/transformers_test.ts.  The empty string is rejected; names
already under a recognized resource path pass through; otherwise the
Gemini API path prepends models/, and Vertex rewrites publisher-slash
names (split at the first slash) and defaults bare names to the google
publisher. -/
def tModel (vertexai : Bool) (model : String) : Except String String :=
  if model = "" then
    Except.error "model is required and must be a string"
  else if vertexai then
    if strStarts "publishers/" model || strStarts "projects/" model ||
        strStarts "models/" model then
      Except.ok model
    else
      match splitFirst '/' model.data with
      | some (pub, rest) =>
        Except.ok ("publishers/" ++ String.mk pub ++ "/models/" ++ String.mk rest)
      | none => Except.ok ("publishers/google/models/" ++ model)
  else
    if strStarts "models/" model || strStarts "tunedModels/" model then
      Except.ok model
    else
      Except.ok ("models/" ++ model)

/-- Session lifecycle states (spec section 3). -/
inductive LifeState where
  | connecting
  | openS
  | closing
  | closed
deriving DecidableEq, Repr

/-- The argument object of sendRealtimeInput: five optional fields, of
which exactly one must be set. -/
structure RealtimeInputParams where
  media : Option Blob
  audio : Option Blob
  text : Option String
  activityStart : Bool
  activityEnd : Bool
deriving DecidableEq, Repr

/-- How many of the five realtime-input fields are set. -/
def countSet (p : RealtimeInputParams) : Nat :=
  (if p.media.isSome then 1 else 0) + (if p.audio.isSome then 1 else 0) +
    (if p.text.isSome then 1 else 0) + (if p.activityStart then 1 else 0) +
    (if p.activityEnd then 1 else 0)

/-- ClientEvent: tagged variant sent to the server (spec section 3),
one wire frame per variant. -/
inductive ClientFrame where
  | setup (model : String)
  | clientContent (turns : List Content) (turnComplete : Bool)
  | realtimeInput (p : RealtimeInputParams)
  | toolResponse (rs : List FunctionResponse)
deriving DecidableEq, Repr

/-- Errors raised synchronously by the session send operations. -/
inductive SessionError where
  | validation (msg : String)
  | sessionClosed
deriving DecidableEq, Repr

/-- Modelled from the spec: the Session state of src/live.ts (missing
from the snapshot).  wire holds frames already delivered to the network
in order; buffer holds writes issued before the transport signalled
readiness; outstanding counts the function calls of the current turn not
yet answered; oncloseCount counts deliveries of the onclose hook. -/
structure Session where
  life : LifeState
  ready : Bool
  buffer : List ClientFrame
  wire : List ClientFrame
  outstanding : Nat
  oncloseCount : Nat
deriving DecidableEq, Repr

/-- Modelled from the spec: enqueue one outbound frame (spec section 5).
Before the ready transition the frame is buffered in arrival order;
afterwards it goes straight to the network. -/
def writeFrame (s : Session) (f : ClientFrame) : Session :=
  if s.ready then { s with wire := s.wire ++ [f] }
  else { s with buffer := s.buffer ++ [f] }

/-- All frames issued so far, in issue order: frames on the wire followed
by frames still buffered. -/
def framesOf (s : Session) : List ClientFrame := s.wire ++ s.buffer

/-- A session is flushed when a ready transport implies an empty buffer.
Every reachable session satisfies this since the ready transition flushes
the buffer. -/
def Flushed (s : Session) : Prop := s.ready = true → s.buffer = []

/-- Modelled from the spec: connect of src/live.ts (missing from the
snapshot) opens the transport in the connecting state and immediately
issues the Setup frame (spec section 4.1); the write is buffered until
the transport is ready. -/
def connect (model : String) : Session :=
  writeFrame
    { life := LifeState.connecting, ready := false, buffer := [], wire := [],
      outstanding := 0, oncloseCount := 0 }
    (ClientFrame.setup model)

/-- Modelled from the spec: the ready transition of the transport (spec
section 5); buffered writes are flushed to the network strictly in
arrival order. -/
def markReady (s : Session) : Session :=
  if s.ready then s
  else { s with ready := true, wire := s.wire ++ s.buffer, buffer := [] }

/-- Modelled from the spec: observing SetupComplete moves the session
from connecting to open (spec section 3). -/
def onSetupComplete (s : Session) : Session :=
  if s.life = LifeState.connecting then { s with life := LifeState.openS } else s

/-- Modelled from the spec: receiving a toolCall server event adds its
function calls to the outstanding count of the current turn. -/
def onToolCall (s : Session) (calls : List FunctionCall) : Session :=
  { s with outstanding := s.outstanding + calls.length }

/-- Modelled from the spec: the setup send of src/live.ts (missing from
the snapshot); fails with SessionClosedError after the session has
transitioned to closed, otherwise frames and writes (spec section 4.5). -/
def sendSetup (s : Session) (model : String) : Session × Option SessionError :=
  if s.life = LifeState.closed then (s, some SessionError.sessionClosed)
  else (writeFrame s (ClientFrame.setup model), none)

/-- Total number of Parts across a normalized Content sequence. -/
def totalParts (cs : List Content) : Nat := (cs.map (fun c => c.parts.length)).sum

/-- Modelled from the spec: sendClientContent of src/live.ts (missing
from the snapshot); normalizes turns via the Content Normalizer, fails
with ValidationError if normalization yields zero Parts, otherwise
serializes and writes exactly one ClientContent frame (spec section
4.5). -/
def sendClientContent (s : Session) (turns : Option ContentListUnion)
    (turnComplete : Bool) : Session × Option SessionError :=
  if s.life = LifeState.closed then (s, some SessionError.sessionClosed)
  else
    match tContents turns with
    | Except.error _ => (s, some (SessionError.validation "turns is required"))
    | Except.ok cs =>
      if totalParts cs = 0 then
        (s, some (SessionError.validation "turns is required"))
      else (writeFrame s (ClientFrame.clientContent cs turnComplete), none)

/-- Modelled from the spec: sendRealtimeInput of src/live.ts (missing
from the snapshot); the Activity/Turn Controller validates, before
framing, that exactly one of the five fields is set (spec section 4.3),
then frames and writes. -/
def sendRealtimeInput (s : Session) (p : RealtimeInputParams) :
    Session × Option SessionError :=
  if s.life = LifeState.closed then (s, some SessionError.sessionClosed)
  else if countSet p = 1 then (writeFrame s (ClientFrame.realtimeInput p), none)
  else
    (s, some (SessionError.validation
      "exactly one of media, audio, text, activityStart or activityEnd must be set"))

/-- Modelled from the spec: sendToolResponse of src/live.ts (missing from
the snapshot); requires a non-empty sequence, a name on every entry, and
an id on every entry whenever more than one function call is outstanding
for the turn (spec section 4.5). -/
def sendToolResponse (s : Session) (rs : List FunctionResponse) :
    Session × Option SessionError :=
  if s.life = LifeState.closed then (s, some SessionError.sessionClosed)
  else if rs.isEmpty then
    (s, some (SessionError.validation "functionResponses is required"))
  else if rs.any (fun r => r.name.isNone) then
    (s, some (SessionError.validation "FunctionResponse request must have a name"))
  else if 1 < s.outstanding ∧ rs.any (fun r => r.id.isNone) = true then
    (s, some (SessionError.validation "FunctionResponse request must have an id"))
  else (writeFrame s (ClientFrame.toolResponse rs), none)

/-- Modelled from the spec: close of src/live.ts (missing from the
snapshot); the first call tears the connection down and delivers the
onclose hook once, every later call is a no-op (spec section 4.1). -/
def close (s : Session) : Session :=
  if s.life = LifeState.closed then s
  else { s with life := LifeState.closed, oncloseCount := s.oncloseCount + 1 }

/-- ServerEvent: tagged variant received from the server (spec section
3). -/
inductive ServerEvent where
  | setupComplete
  | serverContent (modelTurn : Content) (turnComplete : Bool)
  | toolCall (calls : List FunctionCall)
  | toolCallCancel (ids : List String)
  | goAway
deriving DecidableEq, Repr

/-- Inbound wire frames: the recognized discriminators plus an
unrecognized catch-all. -/
inductive ServerFrame where
  | setupComplete
  | serverContent (modelTurn : Content) (turnComplete : Bool)
  | toolCall (calls : List FunctionCall)
  | toolCallCancel (ids : List String)
  | goAway
  | unrecognized (raw : String)
deriving DecidableEq, Repr

/-- Modelled from the spec: the Frame Codec decode direction (spec
section 4.2); each recognized discriminator maps to the corresponding
ServerEvent, an unrecognized one is dropped. -/
def decodeFrame : ServerFrame → Option ServerEvent
  | ServerFrame.setupComplete => some ServerEvent.setupComplete
  | ServerFrame.serverContent c tc => some (ServerEvent.serverContent c tc)
  | ServerFrame.toolCall cs => some (ServerEvent.toolCall cs)
  | ServerFrame.toolCallCancel ids => some (ServerEvent.toolCallCancel ids)
  | ServerFrame.goAway => some ServerEvent.goAway
  | ServerFrame.unrecognized _ => none

/-- One step of the dispatch trace: the onmessage hook is entered with an
event, or the hook invocation for that event returns. -/
inductive DispatchAction where
  | deliverStart (e : ServerEvent)
  | deliverEnd (e : ServerEvent)
deriving DecidableEq, Repr

/-- Modelled from the spec: the Callback Dispatcher read loop (spec
section 4.4); each decoded event is delivered by entering the hook and
waiting for it to return before the next delivery begins. -/
def dispatchEvents : List ServerEvent → List DispatchAction
  | [] => []
  | e :: es =>
    DispatchAction.deliverStart e :: DispatchAction.deliverEnd e :: dispatchEvents es

/-- The full dispatcher: decode every inbound frame in arrival order,
dropping unrecognized ones, then deliver serially. -/
def dispatchFrames (frames : List ServerFrame) : List DispatchAction :=
  dispatchEvents (frames.filterMap decodeFrame)

/-- The sequence of hook invocations of a dispatch trace, in order. -/
def startsOf : List DispatchAction → List ServerEvent
  | [] => []
  | DispatchAction.deliverStart e :: rest => e :: startsOf rest
  | DispatchAction.deliverEnd _ :: rest => startsOf rest

/-- Check that at every point of the trace at most one hook invocation is
open, so the hook is never re-entered while still executing; the counter
is the number of currently open invocations. -/
def serialFrom : Nat → List DispatchAction → Bool
  | n, [] => n == 0
  | n, DispatchAction.deliverStart _ :: rest => n == 0 && serialFrom 1 rest
  | n, DispatchAction.deliverEnd _ :: rest => n == 1 && serialFrom 0 rest

/-- A dispatch trace is serialized when it never overlaps deliveries. -/
def serialized (tr : List DispatchAction) : Bool := serialFrom 0 tr

/-- Constructor options of the GoogleGenAI client. -/
structure ClientOptions where
  apiKey : Option String
  vertexai : Option Bool
  project : Option String
  location : Option String
deriving DecidableEq, Repr

/-- The environment variables the client constructor may consult. -/
structure Env where
  googleApiKey : Option String
  useVertexai : Option Bool
  cloudProject : Option String
  cloudLocation : Option String
deriving DecidableEq, Repr

/-- The configuration struct resolved once at construction time. -/
structure ClientConfig where
  apiKey : Option String
  vertexai : Bool
  project : Option String
  location : Option String
deriving DecidableEq, Repr

/-- Modelled from the spec: the GoogleGenAI constructor of src/client.ts
(missing from the snapshot).  Configuration is resolved once, with
explicit constructor values taking precedence over environment-derived
ones (spec section 9); an explicit api key together with an explicit
project or location is rejected, and when the resolved configuration
carries both an api key and a project or location, the explicit side is
kept and the implicit side dropped (project and location over an
implicit api key), as pinned by the client unit tests. -/
def initClient (opts : ClientOptions) (env : Env) : Except String ClientConfig :=
  if opts.apiKey.isSome && (opts.project.isSome || opts.location.isSome) then
    Except.error
      "Project/location and API key are mutually exclusive in the client initializer."
  else
    let vertexai := (opts.vertexai.getD (env.useVertexai.getD false))
    let apiKey := opts.apiKey.orElse (fun _ => env.googleApiKey)
    let project := opts.project.orElse (fun _ => env.cloudProject)
    let location := opts.location.orElse (fun _ => env.cloudLocation)
    if apiKey.isSome && (project.isSome || location.isSome) then
      if opts.apiKey.isSome then
        Except.ok { apiKey := apiKey, vertexai := vertexai, project := none, location := none }
      else
        Except.ok { apiKey := none, vertexai := vertexai, project := project, location := location }
    else
      Except.ok { apiKey := apiKey, vertexai := vertexai, project := project, location := location }

theorem listStarts_append (p r : List Char) : listStarts p (p ++ r) = true := by
  induction p with
  | nil => rfl
  | cons c cs ih => simp [listStarts, ih]

theorem strStarts_append (p r : String) : strStarts p (p ++ r) = true := by
  unfold strStarts
  rw [String.data_append]
  exact listStarts_append p.data r.data

theorem splitFirst_sep (sep : Char) (pub rest : List Char) (h : sep ∉ pub) :
    splitFirst sep (pub ++ sep :: rest) = some (pub, rest) := by
  induction pub with
  | nil => simp [splitFirst]
  | cons c cs ih =>
    have hc : c ≠ sep := fun he => h (by simp [he])
    have hm : sep ∉ cs := fun hm2 => h (List.mem_cons_of_mem _ hm2)
    simp [splitFirst, beq_iff_eq, hc, ih hm]

theorem splitFirst_none (sep : Char) (l : List Char) (h : sep ∉ l) :
    splitFirst sep l = none := by
  induction l with
  | nil => rfl
  | cons c cs ih =>
    have hc : c ≠ sep := fun he => h (by simp [he])
    have hm : sep ∉ cs := fun hm2 => h (List.mem_cons_of_mem _ hm2)
    simp [splitFirst, beq_iff_eq, hc, ih hm]

theorem string_ne_empty_of_data_ne_nil (s : String) (h : s.data ≠ []) : s ≠ "" := by
  intro he
  exact h (by rw [he])

theorem writeFrame_life (s : Session) (f : ClientFrame) :
    (writeFrame s f).life = s.life := by
  unfold writeFrame; split <;> rfl

theorem writeFrame_ready (s : Session) (f : ClientFrame) :
    (writeFrame s f).ready = s.ready := by
  unfold writeFrame; split <;> rfl

theorem writeFrame_outstanding (s : Session) (f : ClientFrame) :
    (writeFrame s f).outstanding = s.outstanding := by
  unfold writeFrame; split <;> rfl

theorem framesOf_writeFrame (s : Session) (f : ClientFrame) (hf : Flushed s) :
    framesOf (writeFrame s f) = framesOf s ++ [f] := by
  unfold writeFrame framesOf
  by_cases h : s.ready = true
  · rw [if_pos h, hf h]
    simp
  · rw [if_neg h]
    simp

theorem flushed_writeFrame (s : Session) (f : ClientFrame) (hf : Flushed s) :
    Flushed (writeFrame s f) := by
  unfold Flushed writeFrame
  by_cases h : s.ready = true
  · rw [if_pos h]
    intro _
    exact hf h
  · rw [if_neg h]
    intro h2
    exact absurd h2 h

theorem connect_ready (m : String) : (connect m).ready = false := rfl

theorem connect_life (m : String) : (connect m).life = LifeState.connecting := rfl

theorem flushed_connect (m : String) : Flushed (connect m) := by
  intro h
  rw [connect_ready] at h
  cases h

theorem notClosed_connect (m : String) : (connect m).life ≠ LifeState.closed := by
  rw [connect_life]
  intro h
  cases h

theorem startsOf_dispatchEvents (es : List ServerEvent) :
    startsOf (dispatchEvents es) = es := by
  induction es with
  | nil => rfl
  | cons e es ih => simp [dispatchEvents, startsOf, ih]

theorem serialFrom_dispatchEvents (es : List ServerEvent) :
    serialFrom 0 (dispatchEvents es) = true := by
  induction es with
  | nil => rfl
  | cons e es ih => simp [dispatchEvents, serialFrom, ih]

theorem any_name_false_of_all (rs : List FunctionResponse)
    (hall : rs.all (fun r => r.name.isSome) = true) :
    rs.any (fun r => r.name.isNone) = false := by
  cases h : rs.any (fun r => r.name.isNone) with
  | false => rfl
  | true =>
    exfalso
    obtain ⟨r, hr, hrn⟩ := List.any_eq_true.mp h
    have hs2 := List.all_eq_true.mp hall r hr
    rw [Option.isNone_iff_eq_none] at hrn
    rw [hrn] at hs2
    simp at hs2

/-- C9: for every model-name string given to tModel, the empty string is
rejected with "model is required and must be a string"; a name already
starting with a recognized resource prefix (models/ or tunedModels/ in
Gemini API mode; publishers/, projects/ or models/ in Vertex mode) is
returned unchanged; otherwise Gemini API mode prepends models/, and
Vertex mode maps a publisher-slash-model name to
publishers/(publisher)/models/(model) and a bare name to
publishers/google/models/(name). -/
theorem spec_C9 :
    (∀ b : Bool, tModel b "" = Except.error "model is required and must be a string") ∧
    (∀ m : String, tModel false ("models/" ++ m) = Except.ok ("models/" ++ m)) ∧
    (∀ m : String,
      tModel false ("tunedModels/" ++ m) = Except.ok ("tunedModels/" ++ m)) ∧
    (∀ m : String, m ≠ "" → strStarts "models/" m = false →
      strStarts "tunedModels/" m = false →
      tModel false m = Except.ok ("models/" ++ m)) ∧
    (∀ m : String, tModel true ("publishers/" ++ m) = Except.ok ("publishers/" ++ m)) ∧
    (∀ m : String, tModel true ("projects/" ++ m) = Except.ok ("projects/" ++ m)) ∧
    (∀ m : String, tModel true ("models/" ++ m) = Except.ok ("models/" ++ m)) ∧
    (∀ pub rest : String, ('/' : Char) ∉ pub.data →
      strStarts "publishers/" (pub ++ "/" ++ rest) = false →
      strStarts "projects/" (pub ++ "/" ++ rest) = false →
      strStarts "models/" (pub ++ "/" ++ rest) = false →
      tModel true (pub ++ "/" ++ rest) =
        Except.ok ("publishers/" ++ pub ++ "/models/" ++ rest)) ∧
    (∀ m : String, m ≠ "" → ('/' : Char) ∉ m.data →
      strStarts "publishers/" m = false → strStarts "projects/" m = false →
      strStarts "models/" m = false →
      tModel true m = Except.ok ("publishers/google/models/" ++ m)) := by
  have hne : ∀ (p m : String), p.data ≠ [] → p ++ m ≠ "" := by
    intro p m hp
    apply string_ne_empty_of_data_ne_nil
    rw [String.data_append]
    intro h
    exact hp (List.append_eq_nil.mp h).1
  refine ⟨fun b => rfl, ?_, ?_, ?_, ?_, ?_, ?_, ?_, ?_⟩
  · intro m
    unfold tModel
    rw [if_neg (hne "models/" m (by decide))]
    rw [if_neg (by simp)]
    rw [if_pos (by rw [strStarts_append]; simp)]
  · intro m
    unfold tModel
    rw [if_neg (hne "tunedModels/" m (by decide))]
    rw [if_neg (by simp)]
    rw [if_pos (by rw [strStarts_append]; simp)]
  · intro m hm h1 h2
    unfold tModel
    rw [if_neg hm, if_neg (by simp), if_neg (by rw [h1, h2]; simp)]
  · intro m
    unfold tModel
    rw [if_neg (hne "publishers/" m (by decide))]
    rw [if_pos rfl, if_pos (by rw [strStarts_append]; simp)]
  · intro m
    unfold tModel
    rw [if_neg (hne "projects/" m (by decide))]
    rw [if_pos rfl, if_pos (by rw [strStarts_append]; simp)]
  · intro m
    unfold tModel
    rw [if_neg (hne "models/" m (by decide))]
    rw [if_pos rfl, if_pos (by rw [strStarts_append]; simp)]
  · intro pub rest hslash h1 h2 h3
    have hdata : (pub ++ "/" ++ rest).data = pub.data ++ ('/' :: rest.data) := by
      rw [String.data_append, String.data_append]
      simp
    unfold tModel
    rw [if_neg (string_ne_empty_of_data_ne_nil _ (by rw [hdata]; simp))]
    rw [if_pos rfl, if_neg (by rw [h1, h2, h3]; simp)]
    rw [hdata, splitFirst_sep '/' pub.data rest.data hslash]
  · intro m hm hslash h1 h2 h3
    unfold tModel
    rw [if_neg hm, if_pos rfl, if_neg (by rw [h1, h2, h3]; simp)]
    rw [splitFirst_none '/' m.data hslash]

/-- C10: content normalization infers the role of a bare Part
deterministically (functionCall to model; string, text part or
functionResponse part to user), and when normalizing a mixed array,
consecutive strings and text parts accumulate into a single user Content
while each full Content, functionCall part and functionResponse part
closes the accumulation and yields its own Content, preserving input
order. -/
theorem spec_C10 :
    (∀ fc, tContent (ContentUnion.part (Part.functionCall fc)) =
      { role := "model", parts := [Part.functionCall fc] }) ∧
    (∀ s, tContent (ContentUnion.str s) = { role := "user", parts := [Part.text s] }) ∧
    (∀ s, tContent (ContentUnion.part (Part.text s)) =
      { role := "user", parts := [Part.text s] }) ∧
    (∀ fr, tContent (ContentUnion.part (Part.functionResponse fr)) =
      { role := "user", parts := [Part.functionResponse fr] }) ∧
    (∀ (s1 s2 : String) (c : Content) (fc : FunctionCall) (fr : FunctionResponse)
        (c2 : Content) (s3 : String),
      tContents (some (ContentListUnion.array
        [ContentsItem.str s1, ContentsItem.part (Part.text s2), ContentsItem.content c,
         ContentsItem.part (Part.functionCall fc),
         ContentsItem.part (Part.functionResponse fr),
         ContentsItem.content c2, ContentsItem.str s3])) =
      Except.ok
        [{ role := "user", parts := [Part.text s1, Part.text s2] }, c,
         { role := "model", parts := [Part.functionCall fc] },
         { role := "user", parts := [Part.functionResponse fr] }, c2,
         { role := "user", parts := [Part.text s3] }]) := by
  refine ⟨fun fc => rfl, fun s => rfl, fun s => rfl, fun fr => rfl, ?_⟩
  intro s1 s2 c fc fr c2 s3
  rfl

/-- C9 witness: applies spec_C9 at concrete model names, evaluating the
hypotheses by decide. -/
theorem spec_C9_witness :
    tModel false "gemini-1.5-flash-exp" = Except.ok ("models/" ++ "gemini-1.5-flash-exp") ∧
    tModel true ("google" ++ "/" ++ "gemini-1.5-flash-exp") =
      Except.ok ("publishers/" ++ "google" ++ "/models/" ++ "gemini-1.5-flash-exp") ∧
    tModel true "gemini-1.5-flash-exp" =
      Except.ok ("publishers/google/models/" ++ "gemini-1.5-flash-exp") := by
  refine ⟨?_, ?_, ?_⟩
  · exact spec_C9.2.2.2.1 "gemini-1.5-flash-exp" (by decide) (by decide) (by decide)
  · exact spec_C9.2.2.2.2.2.2.2.1 "google" "gemini-1.5-flash-exp"
      (by decide) (by decide) (by decide) (by decide)
  · exact spec_C9.2.2.2.2.2.2.2.2 "gemini-1.5-flash-exp"
      (by decide) (by decide) (by decide) (by decide) (by decide)

/-- C1: for every call to sendRealtimeInput on a session that is not
closed, if the input sets exactly one of the five fields the call
succeeds and produces exactly the corresponding frame, and if it sets
zero or more than one field it fails with a ValidationError and the
session (hence the network) is untouched. -/
theorem spec_C1 (s : Session) (p : RealtimeInputParams)
    (hs : s.life ≠ LifeState.closed) (hf : Flushed s) :
    (countSet p = 1 →
      sendRealtimeInput s p = (writeFrame s (ClientFrame.realtimeInput p), none) ∧
      framesOf (sendRealtimeInput s p).1 = framesOf s ++ [ClientFrame.realtimeInput p]) ∧
    (countSet p ≠ 1 →
      sendRealtimeInput s p =
        (s, some (SessionError.validation
          "exactly one of media, audio, text, activityStart or activityEnd must be set")) ∧
      framesOf (sendRealtimeInput s p).1 = framesOf s) := by
  constructor
  · intro h1
    have he : sendRealtimeInput s p = (writeFrame s (ClientFrame.realtimeInput p), none) := by
      unfold sendRealtimeInput
      rw [if_neg hs, if_pos h1]
    exact ⟨he, by rw [he]; exact framesOf_writeFrame s _ hf⟩
  · intro h1
    have he : sendRealtimeInput s p =
        (s, some (SessionError.validation
          "exactly one of media, audio, text, activityStart or activityEnd must be set")) := by
      unfold sendRealtimeInput
      rw [if_neg hs, if_neg h1]
    exact ⟨he, by rw [he]⟩

/-- C1 witness: a text-only input succeeds on a fresh session and an
all-empty input fails with a ValidationError. -/
theorem spec_C1_witness :
    sendRealtimeInput (connect "m") ⟨none, none, some "hi", false, false⟩ =
      (writeFrame (connect "m")
        (ClientFrame.realtimeInput ⟨none, none, some "hi", false, false⟩), none) ∧
    sendRealtimeInput (connect "m") ⟨none, none, none, false, false⟩ =
      (connect "m", some (SessionError.validation
        "exactly one of media, audio, text, activityStart or activityEnd must be set")) := by
  constructor
  · exact ((spec_C1 (connect "m") ⟨none, none, some "hi", false, false⟩
      (by decide) (flushed_connect "m")).1 (by decide)).1
  · exact ((spec_C1 (connect "m") ⟨none, none, none, false, false⟩
      (by decide) (flushed_connect "m")).2 (by decide)).1

/-- C2: on a session that is not closed, sendClientContent normalizes
turns via the Content Normalizer; when normalization yields at least one
Part it produces exactly one clientContent frame whose turns equal the
normalized sequence and whose turnComplete equals the supplied flag, and
when normalization fails or yields zero Parts it fails with
ValidationError "turns is required" leaving the session untouched. -/
theorem spec_C2 (s : Session) (turns : Option ContentListUnion) (tc : Bool)
    (hs : s.life ≠ LifeState.closed) (hf : Flushed s) :
    (∀ cs, tContents turns = Except.ok cs → 0 < totalParts cs →
      sendClientContent s turns tc = (writeFrame s (ClientFrame.clientContent cs tc), none) ∧
      framesOf (sendClientContent s turns tc).1 =
        framesOf s ++ [ClientFrame.clientContent cs tc]) ∧
    (∀ cs, tContents turns = Except.ok cs → totalParts cs = 0 →
      sendClientContent s turns tc = (s, some (SessionError.validation "turns is required"))) ∧
    (∀ e, tContents turns = Except.error e →
      sendClientContent s turns tc = (s, some (SessionError.validation "turns is required"))) := by
  refine ⟨?_, ?_, ?_⟩
  · intro cs hok hpos
    have he : sendClientContent s turns tc =
        (writeFrame s (ClientFrame.clientContent cs tc), none) := by
      unfold sendClientContent
      rw [if_neg hs]
      simp only [hok]
      rw [if_neg (Nat.pos_iff_ne_zero.mp hpos)]
    exact ⟨he, by rw [he]; exact framesOf_writeFrame s _ hf⟩
  · intro cs hok hz
    unfold sendClientContent
    rw [if_neg hs]
    simp only [hok]
    rw [if_pos hz]
  · intro e herr
    unfold sendClientContent
    rw [if_neg hs]
    simp only [herr]

/-- C2 witness: one string turn normalizes to one user Content and is
framed with the supplied turnComplete flag. -/
theorem spec_C2_witness :
    sendClientContent (connect "m")
      (some (ContentListUnion.single (ContentUnion.str "hi"))) true =
      (writeFrame (connect "m")
        (ClientFrame.clientContent [{ role := "user", parts := [Part.text "hi"] }] true),
       none) := by
  exact ((spec_C2 (connect "m") (some (ContentListUnion.single (ContentUnion.str "hi"))) true
    (by decide) (flushed_connect "m")).1
    [{ role := "user", parts := [Part.text "hi"] }] rfl (by decide)).1

/-- C3: on a session that is not closed, sendToolResponse rejects an
empty sequence, rejects entries without a name, succeeds without ids
when at most one function call is outstanding for the turn, and when
more than one is outstanding an entry without an id fails with a
ValidationError whose message is "FunctionResponse request must have an
id". -/
theorem spec_C3 (s : Session) (rs : List FunctionResponse)
    (hs : s.life ≠ LifeState.closed) (hf : Flushed s) :
    sendToolResponse s [] =
      (s, some (SessionError.validation "functionResponses is required")) ∧
    (rs.any (fun r => r.name.isNone) = true →
      sendToolResponse s rs =
        (s, some (SessionError.validation "FunctionResponse request must have a name"))) ∧
    (s.outstanding ≤ 1 → rs ≠ [] → rs.all (fun r => r.name.isSome) = true →
      sendToolResponse s rs = (writeFrame s (ClientFrame.toolResponse rs), none) ∧
      framesOf (sendToolResponse s rs).1 = framesOf s ++ [ClientFrame.toolResponse rs]) ∧
    (1 < s.outstanding → rs.any (fun r => r.id.isNone) = true →
      rs.all (fun r => r.name.isSome) = true →
      sendToolResponse s rs =
        (s, some (SessionError.validation "FunctionResponse request must have an id"))) := by
  refine ⟨?_, ?_, ?_, ?_⟩
  · unfold sendToolResponse
    rw [if_neg hs]
    rfl
  · intro hany
    cases rs with
    | nil => simp at hany
    | cons a l =>
      unfold sendToolResponse
      rw [if_neg hs, if_neg (by simp), if_pos hany]
  · intro hout hne hall
    have hempty : rs.isEmpty = false := by
      cases rs with
      | nil => exact absurd rfl hne
      | cons a l => rfl
    have hid : ¬(1 < s.outstanding ∧ rs.any (fun r => r.id.isNone) = true) := by
      intro hcon
      exact absurd hcon.1 (Nat.not_lt.mpr hout)
    have he : sendToolResponse s rs = (writeFrame s (ClientFrame.toolResponse rs), none) := by
      unfold sendToolResponse
      rw [if_neg hs, if_neg (by rw [hempty]; simp),
        if_neg (by rw [any_name_false_of_all rs hall]; simp), if_neg hid]
    exact ⟨he, by rw [he]; exact framesOf_writeFrame s _ hf⟩
  · intro h1 hidany hall
    have hempty : rs.isEmpty = false := by
      cases rs with
      | nil => simp at hidany
      | cons a l => rfl
    unfold sendToolResponse
    rw [if_neg hs, if_neg (by rw [hempty]; simp),
      if_neg (by rw [any_name_false_of_all rs hall]; simp), if_pos ⟨h1, hidany⟩]

/-- C3 witness: a single named response succeeds with no outstanding
calls, and an id-less response fails when two calls are outstanding. -/
theorem spec_C3_witness :
    sendToolResponse (connect "m") [⟨some "call-1", some "getStatus", "ok"⟩] =
      (writeFrame (connect "m")
        (ClientFrame.toolResponse [⟨some "call-1", some "getStatus", "ok"⟩]), none) ∧
    sendToolResponse (onToolCall (connect "m") [⟨some "1", "f", "a"⟩, ⟨some "2", "g", "b"⟩])
      [⟨none, some "f", "r"⟩] =
      (onToolCall (connect "m") [⟨some "1", "f", "a"⟩, ⟨some "2", "g", "b"⟩],
        some (SessionError.validation "FunctionResponse request must have an id")) := by
  constructor
  · exact ((spec_C3 (connect "m") [⟨some "call-1", some "getStatus", "ok"⟩]
      (by decide) (flushed_connect "m")).2.2.1 (by decide) (by decide) (by decide)).1
  · have hf2 : Flushed (onToolCall (connect "m") [⟨some "1", "f", "a"⟩, ⟨some "2", "g", "b"⟩]) :=
      fun h => absurd h (by decide)
    exact (spec_C3 (onToolCall (connect "m") [⟨some "1", "f", "a"⟩, ⟨some "2", "g", "b"⟩])
      [⟨none, some "f", "r"⟩] (by decide) hf2).2.2.2 (by decide) (by decide) (by decide)

theorem sendSetup_buffered (s : Session) (m : String)
    (hs : s.life ≠ LifeState.closed) (hr : s.ready = false) :
    sendSetup s m = ({ s with buffer := s.buffer ++ [ClientFrame.setup m] }, none) := by
  unfold sendSetup
  rw [if_neg hs]
  unfold writeFrame
  rw [if_neg (by rw [hr]; simp)]

theorem sendClientContent_buffered (s : Session) (turns : Option ContentListUnion)
    (tc : Bool) (cs : List Content)
    (hs : s.life ≠ LifeState.closed) (hr : s.ready = false)
    (hok : tContents turns = Except.ok cs) (hpos : 0 < totalParts cs) :
    sendClientContent s turns tc =
      ({ s with buffer := s.buffer ++ [ClientFrame.clientContent cs tc] }, none) := by
  unfold sendClientContent
  rw [if_neg hs]
  simp only [hok]
  rw [if_neg (Nat.pos_iff_ne_zero.mp hpos)]
  unfold writeFrame
  rw [if_neg (by rw [hr]; simp)]

theorem sendRealtimeInput_buffered (s : Session) (p : RealtimeInputParams)
    (hs : s.life ≠ LifeState.closed) (hr : s.ready = false) (hp : countSet p = 1) :
    sendRealtimeInput s p =
      ({ s with buffer := s.buffer ++ [ClientFrame.realtimeInput p] }, none) := by
  unfold sendRealtimeInput
  rw [if_neg hs, if_pos hp]
  unfold writeFrame
  rw [if_neg (by rw [hr]; simp)]

theorem sendToolResponse_buffered (s : Session) (rs : List FunctionResponse)
    (hs : s.life ≠ LifeState.closed) (hr : s.ready = false)
    (hout : s.outstanding ≤ 1) (hne : rs ≠ [])
    (hall : rs.all (fun r => r.name.isSome) = true) :
    sendToolResponse s rs =
      ({ s with buffer := s.buffer ++ [ClientFrame.toolResponse rs] }, none) := by
  have hempty : rs.isEmpty = false := by
    cases rs with
    | nil => exact absurd rfl hne
    | cons a l => rfl
  have hid : ¬(1 < s.outstanding ∧ rs.any (fun r => r.id.isNone) = true) :=
    fun hcon => absurd hcon.1 (Nat.not_lt.mpr hout)
  unfold sendToolResponse
  rw [if_neg hs, if_neg (by rw [hempty]; simp),
    if_neg (by rw [any_name_false_of_all rs hall]; simp), if_neg hid]
  unfold writeFrame
  rw [if_neg (by rw [hr]; simp)]

/-- C4: every one of the four send operations fails with
SessionClosedError after the session has transitioned to closed, while
sends issued after connect but before the transport is ready do not
fail: each of the four operations succeeds into the buffer, a sequence
of all four is buffered in arrival order with no error at any step, and
the ready transition flushes the buffer to the wire in that order. -/
theorem spec_C4 :
    (∀ (s : Session) (m : String) (turns : Option ContentListUnion) (tc : Bool)
        (p : RealtimeInputParams) (rs : List FunctionResponse),
      s.life = LifeState.closed →
      sendSetup s m = (s, some SessionError.sessionClosed) ∧
      sendClientContent s turns tc = (s, some SessionError.sessionClosed) ∧
      sendRealtimeInput s p = (s, some SessionError.sessionClosed) ∧
      sendToolResponse s rs = (s, some SessionError.sessionClosed)) ∧
    (∀ (s : Session) (p q : RealtimeInputParams),
      s.life ≠ LifeState.closed → s.ready = false →
      countSet p = 1 → countSet q = 1 →
      (sendRealtimeInput s p).2 = none ∧
      (sendRealtimeInput (sendRealtimeInput s p).1 q).2 = none ∧
      (sendRealtimeInput (sendRealtimeInput s p).1 q).1.buffer =
        s.buffer ++ [ClientFrame.realtimeInput p, ClientFrame.realtimeInput q] ∧
      (sendRealtimeInput (sendRealtimeInput s p).1 q).1.wire = s.wire) ∧
    (∀ (s : Session) (m : String) (turns : Option ContentListUnion) (tc : Bool)
        (cs : List Content) (p : RealtimeInputParams) (rs : List FunctionResponse),
      s.life ≠ LifeState.closed → s.ready = false →
      tContents turns = Except.ok cs → 0 < totalParts cs →
      countSet p = 1 →
      s.outstanding ≤ 1 → rs ≠ [] → rs.all (fun r => r.name.isSome) = true →
      sendSetup s m = ({ s with buffer := s.buffer ++ [ClientFrame.setup m] }, none) ∧
      sendClientContent s turns tc =
        ({ s with buffer := s.buffer ++ [ClientFrame.clientContent cs tc] }, none) ∧
      sendRealtimeInput s p =
        ({ s with buffer := s.buffer ++ [ClientFrame.realtimeInput p] }, none) ∧
      sendToolResponse s rs =
        ({ s with buffer := s.buffer ++ [ClientFrame.toolResponse rs] }, none) ∧
      (sendClientContent (sendSetup s m).1 turns tc).2 = none ∧
      (sendRealtimeInput (sendClientContent (sendSetup s m).1 turns tc).1 p).2 = none ∧
      (sendToolResponse
        (sendRealtimeInput (sendClientContent (sendSetup s m).1 turns tc).1 p).1 rs).2 =
        none ∧
      (sendToolResponse
        (sendRealtimeInput (sendClientContent (sendSetup s m).1 turns tc).1 p).1 rs).1.buffer =
        s.buffer ++ [ClientFrame.setup m, ClientFrame.clientContent cs tc,
          ClientFrame.realtimeInput p, ClientFrame.toolResponse rs] ∧
      (sendToolResponse
        (sendRealtimeInput (sendClientContent (sendSetup s m).1 turns tc).1 p).1 rs).1.wire =
        s.wire ∧
      (markReady (sendToolResponse
        (sendRealtimeInput (sendClientContent (sendSetup s m).1 turns tc).1 p).1 rs).1).wire =
        s.wire ++ (s.buffer ++ [ClientFrame.setup m, ClientFrame.clientContent cs tc,
          ClientFrame.realtimeInput p, ClientFrame.toolResponse rs]) ∧
      (markReady (sendToolResponse
        (sendRealtimeInput (sendClientContent (sendSetup s m).1 turns tc).1 p).1 rs).1).buffer =
        []) ∧
    (∀ s : Session, s.ready = false →
      (markReady s).wire = s.wire ++ s.buffer ∧ (markReady s).buffer = []) := by
  refine ⟨?_, ?_, ?_, ?_⟩
  · intro s m turns tc p rs hc
    refine ⟨?_, ?_, ?_, ?_⟩
    · unfold sendSetup
      rw [if_pos hc]
    · unfold sendClientContent
      rw [if_pos hc]
    · unfold sendRealtimeInput
      rw [if_pos hc]
    · unfold sendToolResponse
      rw [if_pos hc]
  · intro s p q hs hr hp hq
    have e1 := sendRealtimeInput_buffered s p hs hr hp
    have e2 := sendRealtimeInput_buffered
      ({ s with buffer := s.buffer ++ [ClientFrame.realtimeInput p] }) q hs hr hq
    refine ⟨by rw [e1], by rw [e1]; rw [e2], ?_, ?_⟩
    · rw [e1]
      rw [e2]
      simp
    · rw [e1]
      rw [e2]
  · intro s m turns tc cs p rs hs hr hok hpos hp hout hne hall
    have h1 := sendSetup_buffered s m hs hr
    have h2 := sendClientContent_buffered
      ({ s with buffer := s.buffer ++ [ClientFrame.setup m] }) turns tc cs hs hr hok hpos
    have h3 := sendRealtimeInput_buffered
      ({ s with buffer :=
        (s.buffer ++ [ClientFrame.setup m]) ++ [ClientFrame.clientContent cs tc] })
      p hs hr hp
    have h4 := sendToolResponse_buffered
      ({ s with buffer :=
        ((s.buffer ++ [ClientFrame.setup m]) ++ [ClientFrame.clientContent cs tc]) ++
          [ClientFrame.realtimeInput p] })
      rs hs hr hout hne hall
    refine ⟨h1, sendClientContent_buffered s turns tc cs hs hr hok hpos,
      sendRealtimeInput_buffered s p hs hr hp,
      sendToolResponse_buffered s rs hs hr hout hne hall, ?_, ?_, ?_, ?_, ?_, ?_, ?_⟩
    · simp only [h1, h2]
    · simp only [h1, h2, h3]
    · simp only [h1, h2, h3, h4]
    · simp only [h1, h2, h3, h4]
      simp
    · simp only [h1, h2, h3, h4]
    · simp only [h1, h2, h3, h4]
      unfold markReady
      rw [if_neg (by simp [hr])]
      simp
    · simp only [h1, h2, h3, h4]
      unfold markReady
      rw [if_neg (by simp [hr])]
  · intro s hrdy
    unfold markReady
    rw [if_neg (by rw [hrdy]; simp)]
    exact ⟨rfl, rfl⟩

/-- C4 witness: a send on a closed session fails with
SessionClosedError, a pre-ready send is buffered without error, a
four-operation pre-ready sequence lands in the buffer in arrival order,
and the ready transition flushes the buffer onto the wire. -/
theorem spec_C4_witness :
    sendSetup (close (connect "m")) "m2" =
      (close (connect "m"), some SessionError.sessionClosed) ∧
    (sendRealtimeInput (connect "m") ⟨none, none, some "a", false, false⟩).2 = none ∧
    (sendToolResponse
      (sendRealtimeInput
        (sendClientContent (sendSetup (connect "m") "m2").1
          (some (ContentListUnion.single (ContentUnion.str "hi"))) true).1
        ⟨none, none, some "a", false, false⟩).1
      [⟨some "c1", some "f", "ok"⟩]).1.buffer =
      (connect "m").buffer ++ [ClientFrame.setup "m2",
        ClientFrame.clientContent [{ role := "user", parts := [Part.text "hi"] }] true,
        ClientFrame.realtimeInput ⟨none, none, some "a", false, false⟩,
        ClientFrame.toolResponse [⟨some "c1", some "f", "ok"⟩]] ∧
    (markReady (connect "m")).wire = (connect "m").wire ++ (connect "m").buffer := by
  refine ⟨?_, ?_, ?_, ?_⟩
  · exact (spec_C4.1 (close (connect "m")) "m2" none true
      ⟨none, none, none, false, false⟩ [] (by decide)).1
  · exact (spec_C4.2.1 (connect "m") ⟨none, none, some "a", false, false⟩
      ⟨none, none, some "b", false, false⟩ (by decide) (by decide) (by decide) (by decide)).1
  · exact (spec_C4.2.2.1 (connect "m") "m2"
      (some (ContentListUnion.single (ContentUnion.str "hi"))) true
      [{ role := "user", parts := [Part.text "hi"] }]
      ⟨none, none, some "a", false, false⟩ [⟨some "c1", some "f", "ok"⟩]
      (by decide) (by decide) rfl (by decide) (by decide) (by decide) (by decide)
      (by decide)).2.2.2.2.2.2.2.1
  · exact (spec_C4.2.2.2 (connect "m") (by decide)).1

/-- C6: close is idempotent on every session, including one that never
reached open: the first call transitions it to closed delivering the
onclose hook once, and every later call is a no-op with no duplicate
onclose delivery. -/
theorem spec_C6 (s : Session) :
    close (close s) = close s ∧
    (close s).life = LifeState.closed ∧
    (close (close s)).oncloseCount = (close s).oncloseCount ∧
    (s.life = LifeState.closed → close s = s) ∧
    (s.life ≠ LifeState.closed → (close s).oncloseCount = s.oncloseCount + 1) := by
  by_cases h : s.life = LifeState.closed
  · have h1 : close s = s := by
      unfold close
      rw [if_pos h]
    refine ⟨by simp [h1], by rw [h1]; exact h, by simp [h1], fun _ => h1, fun hn => absurd h hn⟩
  · have h1 : close s =
        { s with life := LifeState.closed, oncloseCount := s.oncloseCount + 1 } := by
      unfold close
      rw [if_neg h]
    have h2 : close (close s) = close s := by
      rw [h1]
      unfold close
      rw [if_pos rfl]
    refine ⟨h2, by rw [h1], by rw [h2], fun hc => absurd hc h, fun _ => by rw [h1]⟩

/-- C6 witness: both calls on a fresh session agree and the onclose
count rises exactly once. -/
theorem spec_C6_witness :
    close (close (connect "m")) = close (connect "m") ∧
    (close (connect "m")).oncloseCount = (connect "m").oncloseCount + 1 := by
  have h := spec_C6 (connect "m")
  exact ⟨h.1, h.2.2.2.2 (by decide)⟩

/-- C5: decoded server events are delivered to the onmessage hook
exactly once each, strictly in arrival order, and the dispatch trace is
serialized so the hook is never re-entered while still executing; in
particular the inbound sequence setupComplete, serverContent with
turnComplete false, serverContent with turnComplete true produces three
invocations in that exact order. -/
theorem spec_C5 :
    (∀ frames : List ServerFrame,
      startsOf (dispatchFrames frames) = frames.filterMap decodeFrame) ∧
    (∀ frames : List ServerFrame, serialized (dispatchFrames frames) = true) ∧
    (∀ c c2 : Content,
      startsOf (dispatchFrames
        [ServerFrame.setupComplete, ServerFrame.serverContent c false,
         ServerFrame.serverContent c2 true]) =
        [ServerEvent.setupComplete, ServerEvent.serverContent c false,
         ServerEvent.serverContent c2 true] ∧
      (startsOf (dispatchFrames
        [ServerFrame.setupComplete, ServerFrame.serverContent c false,
         ServerFrame.serverContent c2 true])).length = 3) := by
  refine ⟨?_, ?_, ?_⟩
  · intro frames
    exact startsOf_dispatchEvents (frames.filterMap decodeFrame)
  · intro frames
    exact serialFrom_dispatchEvents (frames.filterMap decodeFrame)
  · intro c c2
    exact ⟨rfl, rfl⟩

/-- C7: configuration is resolved once at construction; every value
supplied to the constructor wins over the corresponding
environment-derived value in the resolved configuration. -/
theorem spec_C7 (opts : ClientOptions) (env : Env) (cfg : ClientConfig)
    (hok : initClient opts env = Except.ok cfg) :
    (∀ b, opts.vertexai = some b → cfg.vertexai = b) ∧
    (∀ k, opts.apiKey = some k → cfg.apiKey = some k) ∧
    (∀ p, opts.project = some p → cfg.project = some p) ∧
    (∀ l, opts.location = some l → cfg.location = some l) := by
  simp only [initClient] at hok
  split at hok
  · exact Except.noConfusion hok
  · next hex =>
    split at hok
    · next hcond =>
      split at hok
      · next hexp =>
        injection hok with h
        subst h
        refine ⟨fun b hb => by simp [hb], fun k hk => by simp [hk, Option.orElse],
          fun p hp => ?_, fun l hl => ?_⟩
        · exact absurd (by simp [hexp, hp] :
            (opts.apiKey.isSome && (opts.project.isSome || opts.location.isSome)) = true) hex
        · exact absurd (by simp [hexp, hl] :
            (opts.apiKey.isSome && (opts.project.isSome || opts.location.isSome)) = true) hex
      · next hexp =>
        injection hok with h
        subst h
        refine ⟨fun b hb => by simp [hb], fun k hk => ?_,
          fun p hp => by simp [hp, Option.orElse], fun l hl => by simp [hl, Option.orElse]⟩
        exact absurd (by simp [hk] : opts.apiKey.isSome = true) hexp
    · next hcond =>
      injection hok with h
      subst h
      exact ⟨fun b hb => by simp [hb], fun k hk => by simp [hk, Option.orElse],
        fun p hp => by simp [hp, Option.orElse], fun l hl => by simp [hl, Option.orElse]⟩

/-- C7 witness: constructor project and location beat the environment
values. -/
theorem spec_C7_witness :
    initClient ⟨none, some true, some "ctor_project", some "ctor_location"⟩
      ⟨some "env_api_key", some true, some "env_project", some "env_location"⟩ =
      Except.ok ⟨none, true, some "ctor_project", some "ctor_location"⟩ ∧
    (⟨none, true, some "ctor_project", some "ctor_location"⟩ : ClientConfig).project =
      some "ctor_project" := by
  have hok : initClient ⟨none, some true, some "ctor_project", some "ctor_location"⟩
      ⟨some "env_api_key", some true, some "env_project", some "env_location"⟩ =
      Except.ok ⟨none, true, some "ctor_project", some "ctor_location"⟩ := rfl
  exact ⟨hok, (spec_C7 _ _ _ hok).2.2.1 "ctor_project" rfl⟩

/-- C8: an explicit apiKey together with an explicit project or location
is rejected with the mutual-exclusion error, and when one side is
explicit and the other only environment-derived, the explicit side is
kept and the other left unset in the resolved configuration. -/
theorem spec_C8 (opts : ClientOptions) (env : Env) :
    (∀ k p, opts.apiKey = some k → opts.project = some p →
      initClient opts env = Except.error
        "Project/location and API key are mutually exclusive in the client initializer.") ∧
    (∀ k l, opts.apiKey = some k → opts.location = some l →
      initClient opts env = Except.error
        "Project/location and API key are mutually exclusive in the client initializer.") ∧
    (∀ k cfg, opts.apiKey = some k → opts.project = none → opts.location = none →
      initClient opts env = Except.ok cfg →
      cfg.apiKey = some k ∧ cfg.project = none ∧ cfg.location = none) ∧
    (∀ p l cfg, opts.apiKey = none → opts.project = some p → opts.location = some l →
      initClient opts env = Except.ok cfg →
      cfg.apiKey = none ∧ cfg.project = some p ∧ cfg.location = some l) := by
  refine ⟨?_, ?_, ?_, ?_⟩
  · intro k p hk hp
    unfold initClient
    rw [if_pos (by simp [hk, hp])]
  · intro k l hk hl
    unfold initClient
    rw [if_pos (by simp [hk, hl])]
  · intro k cfg hk hp hl hok
    cases hcp : env.cloudProject <;> cases hcl : env.cloudLocation <;>
      simp only [initClient, hk, hp, hl, hcp, hcl] at hok <;>
      simp [Option.orElse] at hok <;>
      (subst hok; exact ⟨rfl, rfl, rfl⟩)
  · intro p l cfg hk hp hl hok
    cases hek : env.googleApiKey <;>
      simp only [initClient, hk, hp, hl, hek] at hok <;>
      simp [Option.orElse] at hok <;>
      (subst hok; exact ⟨rfl, rfl, rfl⟩)

/-- C8 witness: both explicit sides reject, and an explicit apiKey over
an environment project keeps the key and drops the project. -/
theorem spec_C8_witness :
    initClient
      ⟨some "constructor_api_key", some true, some "constructor_project",
        some "constructor_location"⟩
      ⟨none, none, none, none⟩ =
      Except.error
        "Project/location and API key are mutually exclusive in the client initializer." ∧
    (⟨some "constructor_api_key", true, none, none⟩ : ClientConfig).project = none := by
  constructor
  · exact (spec_C8 ⟨some "constructor_api_key", some true, some "constructor_project",
      some "constructor_location"⟩ ⟨none, none, none, none⟩).1
      "constructor_api_key" "constructor_project" rfl rfl
  · have hok : initClient ⟨some "constructor_api_key", some true, none, none⟩
        ⟨none, some true, some "env_project", some "env_location"⟩ =
        Except.ok ⟨some "constructor_api_key", true, none, none⟩ := rfl
    exact ((spec_C8 ⟨some "constructor_api_key", some true, none, none⟩
      ⟨none, some true, some "env_project", some "env_location"⟩).2.2.1
      "constructor_api_key" _ rfl rfl rfl hok).2.1

end GenAI
